import Mathlib

/-
Verification of the MULI error-reporting header (include/muli/error.hxx).

The header defines the exception class `muli::ContractViolation` together
with the call-site macros muli_precondition, muli_postcondition,
muli_invariant, muli_assert and muli_fail.  The build-mode selector at
error.hxx:151-153 is the hardcoded `#if 1` (the customary
`#ifndef NDEBUG` is commented out), so the checked branch
(error.hxx:155-202) is compiled under every build configuration and the
release branch (error.hxx:204-227) is dead text.

The embedding below is shallow:
  * a raised C++ exception is reduced to its observable payload — which
    class was thrown and the string returned by what();
  * a helper that either returns or throws becomes a function into
    `Except FailureValue Unit`;
  * a macro invocation site is modelled on argument *expressions*
    (`SrcExpr`): a value together with the list of side effects that
    evaluating the expression performs.  The C++ macros expand to an
    ordinary function call, so every macro argument is evaluated exactly
    once (eagerly, before the helper body runs) — the trace of an
    invocation is the concatenation of the argument traces.  (C++ leaves
    the relative order of argument evaluation unspecified; the trace
    lists the predicate effects first, which is immaterial to the
    properties proved here, all of which only ask whether effects occur.)
  * the C++ `int` line number is modelled as `Int`; `operator<<` on int
    prints its decimal rendering, which is `toString : Int → String`.
-/

namespace MuliSpec

/-- The observable payload of a raised C++ exception:
`isContractViolation` is `true` for `muli::ContractViolation` and `false`
for a plain `std::runtime_error`; `what` is the string returned by the
inherited `what()` accessor (the rendered form). -/
structure FailureValue where
  isContractViolation : Bool
  what : String
deriving DecidableEq, Repr

/-- Models `ContractViolation::createMessage(prefix, message)`
(error.hxx:124-129): an ostringstream receiving
`"\n" << prefix << "\n" << message << "\n"`. -/
def createMessage (pfx message : String) : String :=
  "\n" ++ pfx ++ "\n" ++ message ++ "\n"

/-- Models `ContractViolation::createMessage(prefix, message, file, line)`
(error.hxx:131-138): an ostringstream receiving
`"\n" << prefix << "\n" << message << "\n(" << file << ":" << line << ")\n"`.
Streaming the `int` line prints its decimal rendering. -/
def createMessageLoc (pfx message file : String) (line : Int) : String :=
  "\n" ++ pfx ++ "\n" ++ message ++ "\n(" ++ file ++ ":" ++ toString line ++ ")\n"

/-- Models the two-argument constructor
`ContractViolation(prefix, message)` (error.hxx:140-142): the base
`std::runtime_error` stores `createMessage(prefix, message)` as what(). -/
def ContractViolation.mk2 (pfx message : String) : FailureValue :=
  ⟨true, createMessage pfx message⟩

/-- Models the four-argument constructor
`ContractViolation(prefix, message, file, line)` (error.hxx:144-147): the
base stores `createMessage(prefix, message, file, line)` as what().
Construction is total: no validation of any argument is performed. -/
def ContractViolation.mk4 (pfx message file : String) (line : Int) : FailureValue :=
  ⟨true, createMessageLoc pfx message file line⟩

/-- Models `throw_contract_error(bool, char const *, char const *,
char const *, int)` (error.hxx:155-162): if the predicate is false, throw
`ContractViolation(prefix, message, file, line)`, else return. -/
def throw_contract_error (predicate : Bool) (pfx message file : String)
    (line : Int) : Except FailureValue Unit :=
  if !predicate then
    Except.error (ContractViolation.mk4 pfx message file line)
  else
    Except.ok ()

/-- Models `std::string::c_str()`: the view of the same character
sequence that a `std::string` holds, as consumed by the
`char const *` constructor parameter. -/
def cStr (s : String) : String := s

/-- Models the `std::string` overload `throw_contract_error(bool,
char const *, std::string, char const *, int)` (error.hxx:164-171): if the
predicate is false, throw `ContractViolation(prefix, message.c_str(),
file, line)`, else return. -/
def throw_contract_error_str (predicate : Bool) (pfx message file : String)
    (line : Int) : Except FailureValue Unit :=
  if !predicate then
    Except.error (ContractViolation.mk4 pfx (cStr message) file line)
  else
    Except.ok ()

/-- Models `throw_runtime_error(char const *, char const *, int)`
(error.hxx:173-179): unconditionally throw a `std::runtime_error` whose
what() is `"\n" << message << "\n(" << file << ":" << line << ")\n"`. -/
def throw_runtime_error (message file : String) (line : Int) :
    Except FailureValue Unit :=
  Except.error ⟨false, "\n" ++ message ++ "\n(" ++ file ++ ":" ++ toString line ++ ")\n"⟩

/-- Models the `std::string` overload `throw_runtime_error(std::string,
char const *, int)` (error.hxx:181-187), whose body builds the same
stream from the `std::string` message. -/
def throw_runtime_error_str (message file : String) (line : Int) :
    Except FailureValue Unit :=
  Except.error ⟨false, "\n" ++ cStr message ++ "\n(" ++ file ++ ":" ++ toString line ++ ")\n"⟩

/-- A C++ argument expression at a macro call site: the value it
evaluates to, and the side effects that one evaluation of it performs.
Evaluating the expression n times emits `effects` n times. -/
structure SrcExpr (α : Type) where
  value : α
  effects : List String
deriving DecidableEq, Repr

/-- Models `muli_precondition(PREDICATE, MESSAGE)` in the compiled
(checked) branch (error.hxx:189-190): the macro expands to the function
call `muli::throw_contract_error((PREDICATE), "Precondition violation!",
MESSAGE, __FILE__, __LINE__)`, so both macro arguments are evaluated
exactly once before the helper runs; the result is the helper applied to
the argument values.  The second component is the trace of side effects
of the invocation. -/
def muli_precondition (P : SrcExpr Bool) (M : SrcExpr String)
    (file : String) (line : Int) : Except FailureValue Unit × List String :=
  (throw_contract_error P.value "Precondition violation!" M.value file line,
   P.effects ++ M.effects)

/-- Models `muli_assert(PREDICATE, MESSAGE)` in the compiled (checked)
branch (error.hxx:192-193): it expands to
`muli_precondition(PREDICATE, MESSAGE)`. -/
def muli_assert (P : SrcExpr Bool) (M : SrcExpr String)
    (file : String) (line : Int) : Except FailureValue Unit × List String :=
  muli_precondition P M file line

/-- Models `muli_postcondition(PREDICATE, MESSAGE)` in the compiled
(checked) branch (error.hxx:195-196). -/
def muli_postcondition (P : SrcExpr Bool) (M : SrcExpr String)
    (file : String) (line : Int) : Except FailureValue Unit × List String :=
  (throw_contract_error P.value "Postcondition violation!" M.value file line,
   P.effects ++ M.effects)

/-- Models `muli_invariant(PREDICATE, MESSAGE)` in the compiled (checked)
branch (error.hxx:198-199). -/
def muli_invariant (P : SrcExpr Bool) (M : SrcExpr String)
    (file : String) (line : Int) : Except FailureValue Unit × List String :=
  (throw_contract_error P.value "Invariant violation!" M.value file line,
   P.effects ++ M.effects)

/-- Models `muli_fail(MESSAGE)` in the compiled (checked) branch
(error.hxx:201-202): the macro expands to
`muli::throw_runtime_error(MESSAGE, __FILE__, __LINE__)`, evaluating the
message argument exactly once. -/
def muli_fail (M : SrcExpr String) (file : String) (line : Int) :
    Except FailureValue Unit × List String :=
  (throw_runtime_error M.value file line, M.effects)

/-- Models the build-mode selector at error.hxx:151-153: the customary
`#ifndef NDEBUG` is commented out and replaced by `#if 1`, so the
checked branch is selected whether or not NDEBUG is defined.  The
argument records whether NDEBUG is defined; the result is whether the
checked branch is compiled. -/
def buildSelectsChecked (_ndebugDefined : Bool) : Bool :=
  true

/-- Models `muli_assert(PREDICATE, MESSAGE)` as defined in the (dead)
release branch (error.hxx:216): the macro expands to nothing, so neither
argument is evaluated and nothing is raised. -/
def muli_assert_release (_P : SrcExpr Bool) (_M : SrcExpr String) :
    Except FailureValue Unit × List String :=
  (Except.ok (), [])

/-- Models `muli_fail(MESSAGE)` as defined in the (dead) release branch
(error.hxx:224-225): the macro expands to
`throw std::runtime_error(MESSAGE)`, evaluating the message once and
raising a failure whose what() is the message verbatim. -/
def muli_fail_release (M : SrcExpr String) :
    Except FailureValue Unit × List String :=
  (Except.error ⟨false, M.value⟩, M.effects)

/-- The string `needle` occurs contiguously inside the string `hay`. -/
def ContainsSubstr (needle hay : String) : Prop :=
  ∃ a b : String, hay = a ++ needle ++ b

/-- The rendered string begins with a newline character. -/
def startsWithNL (s : String) : Prop :=
  s.data.head? = some '\n'

/-- The rendered string ends with a newline character. -/
def endsWithNL (s : String) : Prop :=
  s.data.getLast? = some '\n'

/-- Boolean matcher: `n` is an initial segment of `h`. -/
def leadsWith : List Char → List Char → Bool
  | [], _ => true
  | _ :: _, [] => false
  | a :: as, b :: bs => a == b && leadsWith as bs

/-- Boolean matcher: `n` occurs contiguously in `h`. -/
def occursIn : List Char → List Char → Bool
  | n, [] => leadsWith n []
  | n, c :: t => leadsWith n (c :: t) || occursIn n t

theorem leadsWith_self_append (n b : List Char) : leadsWith n (n ++ b) = true := by
  induction n with
  | nil => rfl
  | cons a as ih => simp [leadsWith, ih]

theorem occursIn_self_append (n b : List Char) : occursIn n (n ++ b) = true := by
  cases hnb : n ++ b with
  | nil =>
    have hn : n = [] := (List.append_eq_nil.mp hnb).1
    subst hn
    rfl
  | cons c t =>
    rw [occursIn, ← hnb, leadsWith_self_append]
    simp

theorem occursIn_mid (a n b : List Char) : occursIn n (a ++ (n ++ b)) = true := by
  induction a with
  | nil => simpa using occursIn_self_append n b
  | cons c t ih =>
    rw [List.cons_append, occursIn, ih]
    simp

/-- Completeness of the boolean matcher: an occurrence as a substring is
detected by `occursIn` on the underlying character lists. -/
theorem containsSubstr_occursIn {needle hay : String}
    (h : ContainsSubstr needle hay) : occursIn needle.data hay.data = true := by
  obtain ⟨a, b, rfl⟩ := h
  have hd : ((a ++ needle) ++ b).data = a.data ++ (needle.data ++ b.data) := by
    simp [String.data_append]
  rw [hd]
  exact occursIn_mid a.data needle.data b.data

theorem containsSubstr_intro (a needle b : String) :
    ContainsSubstr needle (a ++ needle ++ b) :=
  ⟨a, b, rfl⟩

theorem containsSubstr_intro' {a needle b hay : String}
    (h : hay = a ++ needle ++ b) : ContainsSubstr needle hay :=
  ⟨a, b, h⟩

/-- The invocation raised a `ContractViolation` whose what() string
contains both the given category prefix and the given message text. -/
def RaisesWith (r : Except FailureValue Unit × List String)
    (pfxv msgv : String) : Prop :=
  ∃ fv : FailureValue, r.fst = Except.error fv ∧
    fv.isContractViolation = true ∧
    ContainsSubstr msgv fv.what ∧ ContainsSubstr pfxv fv.what

theorem containsSubstr_msg_createMessageLoc (pfx m f : String) (l : Int) :
    ContainsSubstr m (createMessageLoc pfx m f l) :=
  ⟨"\n" ++ pfx ++ "\n", "\n(" ++ f ++ ":" ++ toString l ++ ")\n", by
    simp [createMessageLoc, String.append_assoc]⟩

theorem containsSubstr_pfx_createMessageLoc (pfx m f : String) (l : Int) :
    ContainsSubstr pfx (createMessageLoc pfx m f l) :=
  ⟨"\n", "\n" ++ m ++ "\n(" ++ f ++ ":" ++ toString l ++ ")\n", by
    simp [createMessageLoc, String.append_assoc]⟩

theorem containsSubstr_loc_createMessageLoc (pfx m f : String) (l : Int) :
    ContainsSubstr ("(" ++ f ++ ":" ++ toString l ++ ")")
      (createMessageLoc pfx m f l) :=
  ⟨"\n" ++ pfx ++ "\n" ++ m ++ "\n", "\n", by
    apply String.ext
    simp [createMessageLoc, String.data_append, List.append_assoc]⟩

theorem raisesWith_mk (pfxv msgv file : String) (line : Int)
    (r : Except FailureValue Unit × List String)
    (h : r.fst = Except.error (ContractViolation.mk4 pfxv msgv file line)) :
    RaisesWith r pfxv msgv :=
  ⟨ContractViolation.mk4 pfxv msgv file line, h, rfl,
    containsSubstr_msg_createMessageLoc pfxv msgv file line,
    containsSubstr_pfx_createMessageLoc pfxv msgv file line⟩

theorem endsWithNL_append (x y : String) (h : endsWithNL y) :
    endsWithNL (x ++ y) := by
  unfold endsWithNL at h ⊢
  rw [String.data_append, List.getLast?_append, h]
  rfl

theorem startsWithNL_createMessageLoc (pfx m f : String) (l : Int) :
    startsWithNL (createMessageLoc pfx m f l) := by
  unfold startsWithNL createMessageLoc
  simp [String.data_append]

theorem endsWithNL_createMessageLoc (pfx m f : String) (l : Int) :
    endsWithNL (createMessageLoc pfx m f l) :=
  endsWithNL_append _ ")\n" (by unfold endsWithNL; decide)

theorem startsWithNL_createMessage (pfx m : String) :
    startsWithNL (createMessage pfx m) := by
  unfold startsWithNL createMessage
  simp [String.data_append]

theorem endsWithNL_createMessage (pfx m : String) :
    endsWithNL (createMessage pfx m) :=
  endsWithNL_append _ "\n" (by unfold endsWithNL; decide)

theorem startsWithNL_failRender (m f : String) (l : Int) :
    startsWithNL ("\n" ++ m ++ "\n(" ++ f ++ ":" ++ toString l ++ ")\n") := by
  unfold startsWithNL
  simp [String.data_append]

theorem endsWithNL_failRender (m f : String) (l : Int) :
    endsWithNL ("\n" ++ m ++ "\n(" ++ f ++ ":" ++ toString l ++ ")\n") :=
  endsWithNL_append _ ")\n" (by unfold endsWithNL; decide)

/-- C1: in checked mode, for every predicate expression P and message
expression M, each of muli_precondition, muli_postcondition,
muli_invariant and muli_assert returns normally exactly when P evaluates
to true and raises exactly when P evaluates to false; the raised
failure has the what() string containing the message as a substring and
containing the fixed category prefix as a substring, muli_assert using
the precondition prefix. -/
theorem checked_raise_iff_and_render (P : SrcExpr Bool) (M : SrcExpr String)
    (file : String) (line : Int) :
    (((muli_precondition P M file line).fst = Except.ok ()) ↔ P.value = true) ∧
    (((muli_postcondition P M file line).fst = Except.ok ()) ↔ P.value = true) ∧
    (((muli_invariant P M file line).fst = Except.ok ()) ↔ P.value = true) ∧
    (((muli_assert P M file line).fst = Except.ok ()) ↔ P.value = true) ∧
    (P.value = false →
      RaisesWith (muli_precondition P M file line) "Precondition violation!" M.value ∧
      RaisesWith (muli_postcondition P M file line) "Postcondition violation!" M.value ∧
      RaisesWith (muli_invariant P M file line) "Invariant violation!" M.value ∧
      RaisesWith (muli_assert P M file line) "Precondition violation!" M.value) := by
  refine ⟨?_, ?_, ?_, ?_, ?_⟩
  case _ => cases hP : P.value <;>
    simp [muli_precondition, throw_contract_error, hP]
  case _ => cases hP : P.value <;>
    simp [muli_postcondition, throw_contract_error, hP]
  case _ => cases hP : P.value <;>
    simp [muli_invariant, throw_contract_error, hP]
  case _ => cases hP : P.value <;>
    simp [muli_assert, muli_precondition, throw_contract_error, hP]
  case _ =>
    intro h
    refine ⟨?_, ?_, ?_, ?_⟩ <;>
      exact raisesWith_mk _ M.value file line _
        (by simp [muli_precondition, muli_postcondition, muli_invariant,
          muli_assert, throw_contract_error, h])

theorem checked_raise_iff_and_render_witness :
    RaisesWith (muli_precondition ⟨false, []⟩ ⟨"msg", []⟩ "t.x" 7)
      "Precondition violation!" "msg" ∧
    (muli_precondition ⟨true, []⟩ ⟨"msg", []⟩ "t.x" 7).fst = Except.ok () :=
  ⟨(((checked_raise_iff_and_render ⟨false, []⟩ ⟨"msg", []⟩ "t.x" 7).2.2.2.2) rfl).1,
   ((checked_raise_iff_and_render ⟨true, []⟩ ⟨"msg", []⟩ "t.x" 7).1).mpr rfl⟩

/-- C2: the what() string of a ContractViolation constructed with a
location is exactly the concatenation of a newline, the prefix, a
newline, the message, a newline, and the parenthesised file:line
annotation followed by a newline; in particular muli_precondition on a
false predicate with message "x>0" at file "t.x" line 42 raises a
ContractViolation rendering exactly
"\nPrecondition violation!\nx>0\n(t.x:42)\n". -/
theorem rendered_with_location_exact (pfx m f : String) (l : Int) :
    (ContractViolation.mk4 pfx m f l).what
      = "\n" ++ pfx ++ "\n" ++ m ++ "\n(" ++ f ++ ":" ++ toString l ++ ")\n" ∧
    (muli_precondition ⟨false, []⟩ ⟨"x>0", []⟩ "t.x" 42).fst
      = Except.error ⟨true, "\nPrecondition violation!\nx>0\n(t.x:42)\n"⟩ :=
  ⟨rfl, rfl⟩

/-- C3 counterexample: at the concrete truthy predicate with an
effect-bearing message expression, muli_precondition returns normally
and yet the side effect of the message expression occurs — the macro
passes MESSAGE as an eagerly evaluated function argument, so the message
is forced on the success path, contrary to the claim. -/
theorem message_forced_on_success_cex :
    (muli_precondition ⟨true, []⟩ ⟨"ok", ["build expensive message"]⟩ "t.x" 1).fst
      = Except.ok () ∧
    (muli_precondition ⟨true, []⟩ ⟨"ok", ["build expensive message"]⟩ "t.x" 1).snd
      = ["build expensive message"] :=
  ⟨rfl, rfl⟩

/-- C3 amended: every non-elided primitive evaluates its predicate and
its message exactly once per invocation — the macros expand to an
ordinary function call, so the side effects of the message expression
occur even when the predicate is true; the invocation still returns
normally exactly when the predicate is true. -/
theorem message_evaluated_every_invocation (P : SrcExpr Bool)
    (M : SrcExpr String) (file : String) (line : Int) :
    (muli_precondition P M file line).snd = P.effects ++ M.effects ∧
    (muli_postcondition P M file line).snd = P.effects ++ M.effects ∧
    (muli_invariant P M file line).snd = P.effects ++ M.effects ∧
    (muli_assert P M file line).snd = P.effects ++ M.effects ∧
    (muli_fail M file line).snd = M.effects ∧
    (((muli_precondition P M file line).fst = Except.ok ()) ↔ P.value = true) :=
  ⟨rfl, rfl, rfl, rfl, rfl, by
    cases hP : P.value <;> simp [muli_precondition, throw_contract_error, hP]⟩

theorem message_evaluated_every_invocation_witness :
    (muli_precondition ⟨true, ["eval predicate"]⟩ ⟨"m", ["eval message"]⟩ "t.x" 2).snd
      = ["eval predicate", "eval message"] :=
  (message_evaluated_every_invocation ⟨true, ["eval predicate"]⟩
    ⟨"m", ["eval message"]⟩ "t.x" 2).1

/-- C4: muli_assert as defined in the release branch is elided entirely:
it expands to nothing, so it never raises and evaluates neither its
predicate nor its message (no side effect of either occurs). -/
theorem assert_release_elided (P : SrcExpr Bool) (M : SrcExpr String) :
    muli_assert_release P M = (Except.ok (), ([] : List String)) :=
  rfl

/-- C5 counterexample: muli_fail with the concrete message
"Precondition violation!" renders "\nPrecondition violation!\n(t.x:42)\n",
which does contain a category prefix as a substring — the universally
quantified "contains none of the three category prefixes" fails for a
message that itself contains a prefix. -/
theorem fail_contains_pfx_cex :
    (muli_fail ⟨"Precondition violation!", []⟩ "t.x" 42).fst
      = Except.error ⟨false, "\nPrecondition violation!\n(t.x:42)\n"⟩ ∧
    ContainsSubstr "Precondition violation!" "\nPrecondition violation!\n(t.x:42)\n" :=
  ⟨rfl, ⟨"\n", "\n(t.x:42)\n", rfl⟩⟩

/-- C5 amended: in checked mode muli_fail always raises a plain runtime
failure (not a ContractViolation) rendering exactly
"\n" ++ M ++ "\n(" ++ file ++ ":" ++ line ++ ")\n"; the rendered string
contains the message and the parenthesised location, and no category
prefix is inserted by muli_fail itself — in particular for the concrete
call fail("bad input") at t.x:42 the rendered string contains none of
the three category prefixes. -/
theorem fail_raises_exact (M : SrcExpr String) (file : String) (line : Int) :
    (muli_fail M file line).fst
      = Except.error ⟨false,
          "\n" ++ M.value ++ "\n(" ++ file ++ ":" ++ toString line ++ ")\n"⟩ ∧
    ContainsSubstr M.value
      ("\n" ++ M.value ++ "\n(" ++ file ++ ":" ++ toString line ++ ")\n") ∧
    ContainsSubstr ("(" ++ file ++ ":" ++ toString line ++ ")")
      ("\n" ++ M.value ++ "\n(" ++ file ++ ":" ++ toString line ++ ")\n") ∧
    ¬ ContainsSubstr "Precondition violation!" "\nbad input\n(t.x:42)\n" ∧
    ¬ ContainsSubstr "Postcondition violation!" "\nbad input\n(t.x:42)\n" ∧
    ¬ ContainsSubstr "Invariant violation!" "\nbad input\n(t.x:42)\n" := by
  refine ⟨rfl, ⟨"\n", "\n(" ++ file ++ ":" ++ toString line ++ ")\n", by
      simp [String.append_assoc]⟩,
    ⟨"\n" ++ M.value ++ "\n", "\n", by
      apply String.ext
      simp [String.data_append, List.append_assoc]⟩,
    ?_, ?_, ?_⟩ <;>
  exact fun hc => absurd (containsSubstr_occursIn hc) (by decide)

theorem fail_raises_exact_witness :
    (muli_fail ⟨"bad input", []⟩ "t.x" 42).fst
      = Except.error ⟨false, "\nbad input\n(t.x:42)\n"⟩ :=
  (fail_raises_exact ⟨"bad input", []⟩ "t.x" 42).1

/-- C6 counterexample: the release-branch muli_fail raises a failure
whose rendered string is the message verbatim, so with message "bad" the
rendered string neither begins nor ends with a newline — the claim fails
for the release build mode. -/
theorem release_fail_newline_cex :
    (muli_fail_release ⟨"bad", []⟩).fst = Except.error ⟨false, "bad"⟩ ∧
    ¬ startsWithNL "bad" ∧ ¬ endsWithNL "bad" :=
  ⟨rfl, by unfold startsWithNL; decide, by unfold endsWithNL; decide⟩

/-- C6 amended: every ContractViolation what() string (with or without a
location) begins and ends with a newline, and so does the rendered
string of every failure raised by the checked-mode primitives
muli_precondition, muli_postcondition, muli_invariant, muli_assert and
muli_fail; the release-branch muli_fail renders the message verbatim and
therefore begins and ends with a newline only when the message does. -/
theorem rendered_newline_bounds (pfx m f : String) (l : Int)
    (P : SrcExpr Bool) (M : SrcExpr String) :
    (startsWithNL (ContractViolation.mk2 pfx m).what ∧
      endsWithNL (ContractViolation.mk2 pfx m).what) ∧
    (startsWithNL (ContractViolation.mk4 pfx m f l).what ∧
      endsWithNL (ContractViolation.mk4 pfx m f l).what) ∧
    (∀ fv : FailureValue, (muli_precondition P M f l).fst = Except.error fv →
      startsWithNL fv.what ∧ endsWithNL fv.what) ∧
    (∀ fv : FailureValue, (muli_postcondition P M f l).fst = Except.error fv →
      startsWithNL fv.what ∧ endsWithNL fv.what) ∧
    (∀ fv : FailureValue, (muli_invariant P M f l).fst = Except.error fv →
      startsWithNL fv.what ∧ endsWithNL fv.what) ∧
    (∀ fv : FailureValue, (muli_assert P M f l).fst = Except.error fv →
      startsWithNL fv.what ∧ endsWithNL fv.what) ∧
    (∀ fv : FailureValue, (muli_fail M f l).fst = Except.error fv →
      startsWithNL fv.what ∧ endsWithNL fv.what) := by
  refine ⟨⟨startsWithNL_createMessage pfx m, endsWithNL_createMessage pfx m⟩,
    ⟨startsWithNL_createMessageLoc pfx m f l, endsWithNL_createMessageLoc pfx m f l⟩,
    ?_, ?_, ?_, ?_, ?_⟩
  case _ =>
    intro fv h
    cases hP : P.value <;>
      simp [muli_precondition, throw_contract_error, hP] at h
    subst h
    exact ⟨startsWithNL_createMessageLoc _ _ _ _, endsWithNL_createMessageLoc _ _ _ _⟩
  case _ =>
    intro fv h
    cases hP : P.value <;>
      simp [muli_postcondition, throw_contract_error, hP] at h
    subst h
    exact ⟨startsWithNL_createMessageLoc _ _ _ _, endsWithNL_createMessageLoc _ _ _ _⟩
  case _ =>
    intro fv h
    cases hP : P.value <;>
      simp [muli_invariant, throw_contract_error, hP] at h
    subst h
    exact ⟨startsWithNL_createMessageLoc _ _ _ _, endsWithNL_createMessageLoc _ _ _ _⟩
  case _ =>
    intro fv h
    cases hP : P.value <;>
      simp [muli_assert, muli_precondition, throw_contract_error, hP] at h
    subst h
    exact ⟨startsWithNL_createMessageLoc _ _ _ _, endsWithNL_createMessageLoc _ _ _ _⟩
  case _ =>
    intro fv h
    have hfv : fv = ⟨false, "\n" ++ M.value ++ "\n(" ++ f ++ ":" ++ toString l ++ ")\n"⟩ := by
      simpa [muli_fail, throw_runtime_error] using h.symm
    subst hfv
    exact ⟨startsWithNL_failRender _ _ _, endsWithNL_failRender _ _ _⟩

theorem rendered_newline_bounds_witness :
    startsWithNL (ContractViolation.mk4 "Precondition violation!" "m" "t.x" 3).what ∧
    endsWithNL (ContractViolation.mk4 "Precondition violation!" "m" "t.x" 3).what ∧
    startsWithNL (ContractViolation.mk2 "Invariant violation!" "m").what := by
  have h := rendered_newline_bounds "Precondition violation!" "m" "t.x" 3
    ⟨false, []⟩ ⟨"m", []⟩
  have h2 := rendered_newline_bounds "Invariant violation!" "m" "t.x" 3
    ⟨false, []⟩ ⟨"m", []⟩
  exact ⟨(h.2.2.1 _ rfl).1, (h.2.2.1 _ rfl).2, h2.1.1⟩

/-- C7 (intended release rendering, proved on the compiled renderer):
the what() string of a ContractViolation constructed without a location
is exactly "\n" ++ prefix ++ "\n" ++ message ++ "\n" — it carries no
file:line annotation.  The release-branch raising plumbing itself does
not compile (see RESULTS); this theorem records what the existing
two-argument constructor renders. -/
theorem release_render_no_location (pfx m : String) :
    (ContractViolation.mk2 pfx m).what = "\n" ++ pfx ++ "\n" ++ m ++ "\n" :=
  rfl

/-- C8: the char-pointer and std::string overloads of the raising
helpers are extensionally equal on equal message text: they render and
raise identically. -/
theorem overloads_rendered_identical (predicate : Bool) (pfx m f : String)
    (l : Int) :
    throw_contract_error_str predicate pfx m f l
      = throw_contract_error predicate pfx m f l ∧
    throw_runtime_error_str m f l = throw_runtime_error m f l :=
  ⟨rfl, rfl⟩

/-- C9: the build-mode selector is hardcoded to the checked branch
whether or not NDEBUG is defined, muli_assert is exactly
muli_precondition, and a failed muli_assert raises a ContractViolation
rendered with the "Precondition violation!" prefix and the call-site
location annotation. -/
theorem assert_is_checked_precondition (nd : Bool) (P : SrcExpr Bool)
    (M : SrcExpr String) (file : String) (line : Int) :
    buildSelectsChecked nd = true ∧
    muli_assert P M file line = muli_precondition P M file line ∧
    (P.value = false →
      (muli_assert P M file line).fst
        = Except.error (ContractViolation.mk4 "Precondition violation!" M.value file line) ∧
      ContainsSubstr "Precondition violation!"
        (ContractViolation.mk4 "Precondition violation!" M.value file line).what ∧
      ContainsSubstr ("(" ++ file ++ ":" ++ toString line ++ ")")
        (ContractViolation.mk4 "Precondition violation!" M.value file line).what) := by
  refine ⟨rfl, rfl, fun h => ⟨?_, ?_, ?_⟩⟩
  case _ => simp [muli_assert, muli_precondition, throw_contract_error, h]
  case _ => exact containsSubstr_pfx_createMessageLoc _ _ _ _
  case _ => exact containsSubstr_loc_createMessageLoc _ _ _ _

theorem assert_is_checked_precondition_witness :
    (muli_assert ⟨false, []⟩ ⟨"oops", []⟩ "t.x" 5).fst
      = Except.error (ContractViolation.mk4 "Precondition violation!" "oops" "t.x" 5) :=
  ((assert_is_checked_precondition true ⟨false, []⟩ ⟨"oops", []⟩ "t.x" 5).2.2 rfl).1

/-- C10: constructing a ContractViolation with a location is total for
every integer line value, including zero and negative values — no
validation of the line is performed — and the what() string embeds the
decimal rendering of the line verbatim inside the parenthesised
file:line segment. -/
theorem line_rendered_verbatim (pfx m f : String) (l : Int) :
    (ContractViolation.mk4 pfx m f l).isContractViolation = true ∧
    (ContractViolation.mk4 pfx m f l).what
      = "\n" ++ pfx ++ "\n" ++ m ++ "\n(" ++ f ++ ":" ++ toString l ++ ")\n" ∧
    ContainsSubstr ("(" ++ f ++ ":" ++ toString l ++ ")")
      (ContractViolation.mk4 pfx m f l).what ∧
    (ContractViolation.mk4 "p" "m" "t.x" (-7)).what = "\np\nm\n(t.x:-7)\n" ∧
    (ContractViolation.mk4 "p" "m" "t.x" 0).what = "\np\nm\n(t.x:0)\n" :=
  ⟨rfl, rfl, containsSubstr_loc_createMessageLoc pfx m f l, rfl, rfl⟩

end MuliSpec
